import Mathlib

/-!
Verification of the sync-orchestration core of a cloud-media archival
system: the media lister (listing + ledger diffing), the transfer engine
(video downloader), the token validator, and the secrets rotator, as a
shallow embedding of the Python sources.

External collaborators (HTTP calls, the secret store, the object store,
the ledger store, wall-clock time) are passed in as explicit oracle
parameters; everything else is translated directly from the handler code.
-/

namespace SwishCloudSync

/-! ## Transfer Engine: upload-strategy selection

From `lambda_functions/video_downloader/handler.py`.
`MULTIPART_THRESHOLD` defaults to 104857600 (100 MB); the handler reads it
from the environment, so the strategy choice is modelled with the
threshold as an explicit parameter alongside the concrete default. -/

/-- Default of the `MULTIPART_THRESHOLD` environment variable (100 MB). -/
def MULTIPART_THRESHOLD : Nat := 104857600

inductive UploadStrategy where
  | chunked
  | direct
  deriving DecidableEq, Repr

/-- The strategy branch of `download_and_upload_video`:
`if file_size == 0 or file_size > MULTIPART_THRESHOLD:` use the multipart
(chunked) path, `else` the direct path. -/
def chooseUploadStrategy (threshold fileSize : Nat) : UploadStrategy :=
  if fileSize = 0 ∨ fileSize > threshold then .chunked else .direct

/-! ## Media Differ: `filter_new_videos`

From `lambda_functions/media_lister/handler.py`. The ledger lookup
(`batch_get_sync_status`) is external state; it is modelled as a map from
media id to the optional status string it returned (`none` both when the
id is absent from the table and when the stored item has no `status`
attribute, exactly as `sync_statuses.get(media_id)` behaves). -/

/-- A video dictionary as built by `list_media_from_provider`. -/
structure VideoDict where
  media_id : String
  filename : String
  download_url : String
  file_size : Nat
  upload_date : String
  duration : Nat
  media_type : String
  resolution : String
  deriving DecidableEq, Repr

/-- Model of `filter_new_videos`: keep a video iff its ledger status is absent
(`status is None`) or not the string `COMPLETED`. The `if not videos:
return []` guard is the empty-filter case. -/
def filter_new_videos (videos : List VideoDict)
    (sync_statuses : String → Option String) : List VideoDict :=
  videos.filter (fun video =>
    match sync_statuses video.media_id with
    | none => true
    | some status => status ≠ "COMPLETED")

/-! ## Token Validator

From `lambda_functions/token_validator/handler.py`. `test_api_call` is an
HTTP probe against the provider; it returns `success = (status == 200)`
together with the status, and maps timeouts/network failures to
`http_code = 0` with `success = False`. It is therefore modelled as an
oracle `probe : String → Nat` from the cookie header sent to the HTTP
status observed (0 meaning network failure), which captures exactly the
dictionary `test_api_call` builds. -/

namespace TokenValidator

/-- Python `str.split(sep)` for a one-character separator, on character
lists: every occurrence of the separator starts a new (possibly empty)
piece. -/
def splitChar (c : Char) : List Char → List (List Char)
  | [] => [[]]
  | x :: xs =>
    let r := splitChar c xs
    if x = c then [] :: r
    else match r with
      | [] => [[x]]
      | y :: ys => (x :: y) :: ys

/-- Python `str.strip()`: drop whitespace from both ends. -/
def pyStrip (l : List Char) : List Char :=
  ((l.dropWhile Char.isWhitespace).reverse.dropWhile Char.isWhitespace).reverse

/-- Python `str.startswith(pat)` on character lists. -/
def startsWithChars : List Char → List Char → Bool
  | _, [] => true
  | [], _ :: _ => false
  | a :: as, b :: bs => a = b && startsWithChars as bs

/-- Model of `extract_cookie_value`: split the cookie header on `;`, strip each
part, and return the value of the first part starting with
`<cookie_name>=` (the part minus the `name=` head), or the empty string
when none matches or on error. -/
def extract_cookie_value (cookie_string cookie_name : String) : String :=
  match ((splitChar ';' cookie_string.data).map pyStrip).find?
      (fun part => startsWithChars part (cookie_name.data ++ ['='])) with
  | some part => String.mk (part.drop (cookie_name.data.length + 1))
  | none => ""

/-- The minimal-credential cookie header built in phase 1 of
`validate_cookies`. -/
def minimal_cookie_header (tok uid : String) : String :=
  "gp_access_token=" ++ tok ++ "; gp_user_id=" ++ uid

/-- Outcome of `validate_cookies`: the returned method dictionary, or the
exception raised. `validationError` stands for the
`AuthenticationError(f'Cookie validation failed with HTTP ...')` raise
(the spec's transient `ValidationError`). -/
inductive ValidationOutcome where
  | success (method : String) (http_code : Nat)
  | noCookiesError
  | tokenExpired
  | validationError (http_code : Nat)
  deriving DecidableEq, Repr

/-- Phase 2 of `validate_cookies`: send the full cookie header; on 200
return method `full_cookies`; otherwise raise `TokenExpiredError` when the
status is 401/403 and `AuthenticationError` (the transient validation
failure) for any other status or network failure. `attempted` is the probe
trace accumulated so far. -/
def full_phase (cookies : String) (probe : String → Nat)
    (attempted : List String) : ValidationOutcome × List String :=
  if probe cookies = 200 then
    (.success "full_cookies" (probe cookies), attempted ++ [cookies])
  else if probe cookies = 401 ∨ probe cookies = 403 then
    (.tokenExpired, attempted ++ [cookies])
  else
    (.validationError (probe cookies), attempted ++ [cookies])

/-- Model of `validate_cookies`, returning its outcome together with the ordered
list of cookie headers sent to the probe (the trace of `test_api_call`
invocations). Phase 1 (minimal cookies) runs only when both
`gp_access_token` and `gp_user_id` are extractable from the header
(`if gp_access_token and gp_user_id:`); phase 2 is `full_phase`. -/
def validate_cookies (cookies : String) (probe : String → Nat) :
    ValidationOutcome × List String :=
  if cookies = "" then (.noCookiesError, [])
  else if extract_cookie_value cookies "gp_access_token" ≠ "" ∧
      extract_cookie_value cookies "gp_user_id" ≠ "" then
    if probe (minimal_cookie_header
        (extract_cookie_value cookies "gp_access_token")
        (extract_cookie_value cookies "gp_user_id")) = 200 then
      (.success "minimal_cookies"
        (probe (minimal_cookie_header
          (extract_cookie_value cookies "gp_access_token")
          (extract_cookie_value cookies "gp_user_id"))),
       [minimal_cookie_header
          (extract_cookie_value cookies "gp_access_token")
          (extract_cookie_value cookies "gp_user_id")])
    else
      full_phase cookies probe
        [minimal_cookie_header
          (extract_cookie_value cookies "gp_access_token")
          (extract_cookie_value cookies "gp_user_id")]
  else full_phase cookies probe []

/-- The token-validator lambda handler's exception dispatch:
`publish_expiration_alert` (the high-severity SNS alert) is called in the
`except TokenExpiredError` branch and nowhere else. -/
def handler_alert_emitted : ValidationOutcome → Bool
  | .tokenExpired => true
  | _ => false

/-- The handler's returned `statusCode` per outcome: 200 on success, 401
on `TokenExpiredError`, 500 on any other exception. -/
def handler_statusCode : ValidationOutcome → Nat
  | .success _ _ => 200
  | .tokenExpired => 401
  | _ => 500

/-- C7 claim, formalised: for every (nonempty-cookie) credential record
the first probe attempted is the minimal-credential header, and method
`full_cookies` is returned only when the trace is minimal-then-full with
the minimal probe having failed. -/
def probeOrderingClaim : Prop :=
  ∀ (cookies : String) (probe : String → Nat), cookies ≠ "" →
    ((validate_cookies cookies probe).2.head? =
        some (minimal_cookie_header
          (extract_cookie_value cookies "gp_access_token")
          (extract_cookie_value cookies "gp_user_id"))) ∧
    (∀ code,
      (validate_cookies cookies probe).1 = .success "full_cookies" code →
      (validate_cookies cookies probe).2 =
          [minimal_cookie_header
            (extract_cookie_value cookies "gp_access_token")
            (extract_cookie_value cookies "gp_user_id"), cookies] ∧
        probe (minimal_cookie_header
          (extract_cookie_value cookies "gp_access_token")
          (extract_cookie_value cookies "gp_user_id")) ≠ 200)

end TokenValidator

/-! ## Transfer Engine: the video-downloader handler

From `lambda_functions/video_downloader/handler.py`. External
collaborators enter as oracle fields of `DownloaderEnv`: the object
store's head state, `datetime` parsing/clock, credential retrieval, the
download-URL resolution call, and the network outcome of
`download_and_upload_video`. -/

namespace VideoDownloader

/-- Metadata returned by the object store's head probe for a stored
object: the `sourcemediaid` metadata tag (S3 reports metadata keys
lowercased; uploads write `SourceMediaId`). -/
structure S3ObjectMeta where
  sourcemediaid : Option String
  deriving DecidableEq, Repr

/-- Model of `check_already_uploaded`: head the object at `s3_key`; `true` iff it
exists and its `sourcemediaid` metadata equals `media_id`. A missing
object (`NoSuchKey`) or any probe error yields `false`. -/
def check_already_uploaded (s3 : String → Option S3ObjectMeta)
    (s3_key media_id : String) : Bool :=
  match s3 s3_key with
  | none => false
  | some meta => meta.sourcemediaid == some media_id

/-- Two-digit month rendering, as the f-string `{date.month:02d}`. -/
def pad2 (n : Nat) : String :=
  if n < 10 then "0" ++ toString n else toString n

/-- Model of `generate_s3_key`: `provider-videos/year/month/filename`. The
(year, month) pair comes from `datetime.fromisoformat` on the upload
date, falling back to the current UTC date when parsing fails; both are
external and enter as the `parseIso` oracle and the `today` pair. -/
def generate_s3_key (parseIso : String → Option (Nat × Nat))
    (today : Nat × Nat) (provider filename upload_date : String) : String :=
  let ym := (parseIso upload_date).getD today
  provider ++ "-videos/" ++ toString ym.1 ++ "/" ++ pad2 ym.2 ++ "/" ++ filename

/-- Network outcome of `download_and_upload_video` for a resolved URL:
success (bytes transferred + ETag, after exactly one download `GET`), an
HTTP error raised by `raise_for_status` on the download response (the
`GET` was made), or any other failure (`downloadStarted` says whether the
download `GET` had been issued, e.g. `create_multipart_upload` can fail
before it). -/
inductive TransferOutcome where
  | ok (bytes : Nat) (etag : String)
  | httpError (status : Nat)
  | otherFailure (msg : String) (downloadStarted : Bool)
  deriving DecidableEq, Repr

/-- One `update_sync_status` call: the DynamoDB key, the status written,
and the additional attributes merged into the record. -/
structure LedgerWrite where
  media_id : String
  status : String
  attrs : List (String × String)
  deriving DecidableEq, Repr

/-- The fields the handler reads from its invocation event. -/
structure DownloadEvent where
  provider : String
  media_id : String
  filename : String
  file_size : Nat
  upload_date : String
  retry_count : Nat
  deriving DecidableEq, Repr

/-- Oracle bundle for one handler invocation. `now`, `transferDuration`
and `throughputMbps` are the wall-clock-derived renderings written into
the ledger (opaque to the logic); `credentials` is the outcome of
`retrieve_credentials`. -/
structure DownloaderEnv where
  s3 : String → Option S3ObjectMeta
  parseIso : String → Option (Nat × Nat)
  today : Nat × Nat
  now : String
  credentials : Except String Unit
  resolveUrl : Except String String
  transfer : String → TransferOutcome
  transferDuration : String
  throughputMbps : String

/-- What the handler invocation ends as: a 200 return (already uploaded,
completed, or the 404 soft success) or a re-raised exception. -/
inductive RunOutcome where
  | alreadyUploaded (s3_key : String)
  | completed (s3_key : String) (bytes : Nat)
  | sourceDeleted
  | raisedHTTP (status : Nat)
  | raisedTransfer (msg : String)
  | raisedOther (msg : String)
  deriving DecidableEq, Repr

/-- Returns `true` iff the invocation returns a statusCode-200 result rather than
re-raising. -/
def returns_success : RunOutcome → Bool
  | .alreadyUploaded _ => true
  | .completed _ _ => true
  | .sourceDeleted => true
  | _ => false

/-- Observable effects of one handler invocation: the outcome, the number
of download `GET` requests issued, the ordered `update_sync_status`
calls, and the object-store state afterwards. -/
structure RunResult where
  outcome : RunOutcome
  downloads : Nat
  ledgerWrites : List LedgerWrite
  s3After : String → Option S3ObjectMeta

/-- The FAILED ledger write shared by the handler's exception branches. -/
def failedWrite (ev : DownloadEvent) (msg : String) : LedgerWrite :=
  { media_id := ev.media_id, status := "FAILED",
    attrs := [("error_message", msg),
              ("retry_count", toString (ev.retry_count + 1))] }

/-- The video-downloader lambda handler: credentials, key generation,
idempotency short-circuit, IN_PROGRESS ledger write, URL resolution
(APIError becomes TransferError), transfer, and the per-exception ledger
dispatch — 404 on the download marks COMPLETED with a `source_deleted`
note and returns success; other HTTP errors and transfer failures mark
FAILED and re-raise. -/
def downloader_handler (env : DownloaderEnv) (ev : DownloadEvent) :
    RunResult :=
  match env.credentials with
  | .error e =>
      -- retrieve_credentials raises TransferError, caught by the
      -- except-TransferError branch: FAILED write, re-raise
      { outcome := .raisedTransfer ("Failed to retrieve credentials: " ++ e),
        downloads := 0,
        ledgerWrites := [failedWrite ev ("Failed to retrieve credentials: " ++ e)],
        s3After := env.s3 }
  | .ok _ =>
    let s3_key := generate_s3_key env.parseIso env.today
      ev.provider ev.filename ev.upload_date
    if check_already_uploaded env.s3 s3_key ev.media_id then
      { outcome := .alreadyUploaded s3_key, downloads := 0,
        ledgerWrites := [], s3After := env.s3 }
    else
      let inProgress : LedgerWrite :=
        { media_id := ev.media_id, status := "IN_PROGRESS",
          attrs := [("provider", ev.provider), ("filename", ev.filename),
                    ("file_size", toString ev.file_size),
                    ("upload_date", ev.upload_date)] }
      match env.resolveUrl with
      | .error e =>
          { outcome := .raisedTransfer ("Failed to get download URL: " ++ e),
            downloads := 0,
            ledgerWrites := [inProgress,
              failedWrite ev ("Failed to get download URL: " ++ e)],
            s3After := env.s3 }
      | .ok url =>
        match env.transfer url with
        | .ok bytes etag =>
            { outcome := .completed s3_key bytes,
              downloads := 1,
              ledgerWrites := [inProgress,
                { media_id := ev.media_id, status := "COMPLETED",
                  attrs := [("s3_key", s3_key), ("s3_etag", etag),
                            ("sync_timestamp", env.now ++ "Z"),
                            ("transfer_duration", env.transferDuration),
                            ("throughput_mbps", env.throughputMbps),
                            ("bytes_transferred", toString bytes)] }],
              s3After := fun k =>
                if k = s3_key then some { sourcemediaid := some ev.media_id }
                else env.s3 k }
        | .httpError status =>
            if status = 404 then
              { outcome := .sourceDeleted,
                downloads := 1,
                ledgerWrites := [inProgress,
                  { media_id := ev.media_id, status := "COMPLETED",
                    attrs := [("note", "source_deleted"),
                              ("sync_timestamp", env.now ++ "Z")] }],
                s3After := env.s3 }
            else
              { outcome := .raisedHTTP status,
                downloads := 1,
                ledgerWrites := [inProgress,
                  failedWrite ev ("HTTP " ++ toString status)],
                s3After := env.s3 }
        | .otherFailure msg downloadStarted =>
            { outcome := .raisedOther msg,
              downloads := if downloadStarted then 1 else 0,
              ledgerWrites := [inProgress, failedWrite ev msg],
              s3After := env.s3 }

/-! ### `multipart_upload_stream`: session lifecycle

The chunked path, modelled at the granularity of the object-store
multipart API calls it performs. The download response body enters as the
list of chunk sizes `iter_content` yields; each S3 call outcome is an
oracle. An `abort_multipart_upload` failure is caught and logged by the
code, so the original error propagates either way; the trace records the
abort attempt itself. -/

/-- One S3 multipart-API call made by `multipart_upload_stream`. -/
inductive S3Action where
  | createSession
  | uploadPart (partNumber : Nat)
  | completeSession
  | abortSession
  deriving DecidableEq, Repr

/-- Oracles for one `multipart_upload_stream` run: outcome of
`create_multipart_upload` (the UploadId), of the download `GET` +
`iter_content` (the chunk sizes, or the request error), of each
`upload_part` (part number, chunk size → ETag), and of
`complete_multipart_upload`. -/
structure MultipartEnv where
  create : Except String String
  httpGet : Except String (List Nat)
  uploadPart : Nat → Nat → Except String String
  complete : Except String String

/-- The chunk loop: `for chunk in response.iter_content(...)`, skipping
falsy (empty) chunks, uploading each as a part with increasing part
number, collecting `(PartNumber, ETag)` pairs and the byte count;
returns the error of the first failing `upload_part` together with the
trace of part uploads attempted. -/
def upload_parts (up : Nat → Nat → Except String String) :
    List Nat → Nat →
    Except String (List (Nat × String) × Nat) × List S3Action
  | [], _ => (.ok ([], 0), [])
  | chunk :: rest, partNo =>
    if chunk = 0 then upload_parts up rest partNo
    else
      match up partNo chunk with
      | .error e => (.error e, [.uploadPart partNo])
      | .ok etag =>
        match upload_parts up rest (partNo + 1) with
        | (.error e, tr) => (.error e, .uploadPart partNo :: tr)
        | (.ok (parts, bytes), tr) =>
          (.ok ((partNo, etag) :: parts, chunk + bytes),
           .uploadPart partNo :: tr)

/-- Result of `multipart_upload_stream`: the returned
(bytes_transferred, ETag, part count) or the propagated error, together
with the ordered trace of S3 multipart calls. -/
structure MultipartResult where
  result : Except String (Nat × String × Nat)
  trace : List S3Action

/-- Model of `multipart_upload_stream`: create the session; inside the `try`,
download and stream parts and complete; `except` any failure after
creation → abort the session (abort errors are swallowed) and re-raise
the original error. A failure of `create_multipart_upload` itself happens
before the `try`, so nothing is aborted. -/
def multipart_upload_stream (env : MultipartEnv) : MultipartResult :=
  match env.create with
  | .error e => { result := .error e, trace := [] }
  | .ok _uploadId =>
    match env.httpGet with
    | .error e =>
        { result := .error e, trace := [.createSession, .abortSession] }
    | .ok chunks =>
      match upload_parts env.uploadPart chunks 1 with
      | (.error e, tr) =>
          { result := .error e,
            trace := .createSession :: (tr ++ [.abortSession]) }
      | (.ok (parts, bytes), tr) =>
        match env.complete with
        | .error e =>
            { result := .error e,
              trace := .createSession ::
                (tr ++ [.completeSession, .abortSession]) }
        | .ok etag =>
            { result := .ok (bytes, etag, parts.length),
              trace := .createSession :: (tr ++ [.completeSession]) }

end VideoDownloader

/-! ## Media Lister: listing helper and shape validation

From `lambda_functions/media_lister/handler.py` and the provider's
`list_media_with_start_page` (which returns a
`(videos, pagination metadata)` TUPLE). `list_media_from_provider` binds
that tuple to `videos` and runs `for video in videos:`, so Python
iterates the two tuple components themselves; the embedding makes the
dynamic typing explicit with `PyObj`. -/

namespace MediaLister

/-- The provider's `VideoMetadata` dataclass. -/
structure VideoMetadata where
  media_id : String
  filename : String
  download_url : String
  file_size : Nat
  upload_date : String
  duration : Nat
  provider : String
  deriving DecidableEq, Repr

/-- The pagination-metadata dictionary built by
`list_media_with_start_page`. -/
structure PaginationMeta where
  current_page : Nat
  total_pages : Nat
  total_items : Nat
  per_page : Nat
  deriving DecidableEq, Repr

/-- A Python value flowing through the per-item loop: a `VideoMetadata`
object, or one of the two components of the returned tuple. -/
inductive PyObj where
  | video (v : VideoMetadata)
  | videoList (vs : List VideoMetadata)
  | metaDict (m : PaginationMeta)
  deriving DecidableEq, Repr

/-- Python attribute lookup `x.media_id`: defined on `VideoMetadata`
objects, `AttributeError` (`none`) on a list or a dict. -/
def getattr_media_id : PyObj → Option String
  | .video v => some v.media_id
  | _ => none

/-- Iterating the `(videos, pagination_metadata)` tuple yields its two
components, in order. -/
def iterate_pair (p : List VideoMetadata × PaginationMeta) : List PyObj :=
  [.videoList p.1, .metaDict p.2]

/-- The dictionary the loop body builds from one `VideoMetadata`:
`getattr(video, 'media_type', 'video')` and
`getattr(video, 'resolution', 'unknown')` take the defaults since the
dataclass has neither attribute. -/
def makeVideoDict (v : VideoMetadata) : VideoDict :=
  { media_id := v.media_id, filename := v.filename,
    download_url := v.download_url, file_size := v.file_size,
    upload_date := v.upload_date, duration := v.duration,
    media_type := "video", resolution := "unknown" }

/-- The list comprehension
`[field for field in required_fields if not video.get(field)]`: the
required field names whose value is falsy (empty string, or 0 for
`file_size`), in declaration order. -/
def missing_required_fields (video : VideoDict) : List String :=
  (if video.media_id = "" then ["media_id"] else []) ++
  (if video.filename = "" then ["filename"] else []) ++
  (if video.download_url = "" then ["download_url"] else []) ++
  (if video.file_size = 0 then ["file_size"] else [])

/-- Model of `validate_video_metadata`: raise `APIError(..., status_code=200)`
when any required field is missing/falsy, else return normally. -/
def validate_video_metadata (video : VideoDict) :
    Except (String × Nat) Unit :=
  if missing_required_fields video = [] then .ok ()
  else
    .error ("API response missing required fields: " ++
      String.intercalate ", " (missing_required_fields video) ++
      ". API structure may have changed.", 200)

/-- The per-item loop of `list_media_from_provider`. For a
`VideoMetadata` element the dict is built and validated; a validation
`APIError` is caught by the loop's `except Exception` (whose warning can
evaluate `video.media_id`) and the item is skipped. For a non-video
element, building the dict raises `AttributeError`, and the `except`
handler's f-string `{video.media_id}` re-raises `AttributeError`, which
escapes the loop (`.error ()`). -/
def process_videos : List PyObj → Except Unit (List VideoDict)
  | [] => .ok []
  | obj :: rest =>
    match getattr_media_id obj with
    | none => .error ()
    | some _ =>
      match obj with
      | .video v =>
        match validate_video_metadata (makeVideoDict v) with
        | .ok _ =>
          match process_videos rest with
          | .ok ds => .ok (makeVideoDict v :: ds)
          | .error e => .error e
        | .error _ => process_videos rest
      | _ => .error ()

/-- How `list_media_from_provider` ends when it does not return:
`APIError`s are re-raised as-is, anything else is wrapped in
`ProviderError`. -/
inductive ListerError where
  | apiError (status : Nat)
  | providerError
  deriving DecidableEq, Repr

/-- Model of `list_media_from_provider`: call the provider (its `APIError`
re-raised), then run the per-item loop over the value it returned — the
`(videos, pagination_metadata)` tuple — wrapping any escaping exception
in `ProviderError`. -/
def list_media_from_provider
    (providerResult : Except Nat (List VideoMetadata × PaginationMeta)) :
    Except ListerError (List VideoDict) :=
  match providerResult with
  | .error status => .error (.apiError status)
  | .ok pr =>
    match process_videos (iterate_pair pr) with
    | .ok ds => .ok ds
    | .error _ => .error .providerError

end MediaLister

/-! ## Credential Rotator

From `lambda_functions/secrets_rotator/handler.py`. The credential blob
is opaque (a string); the secret store's `update_secret` succeeds or
fails per payload, and a failed write leaves the stored value unchanged. -/

namespace SecretsRotator

/-- Observable outcome of one rotation run: the handler's statusCode, the
credential blob left in the secret store, and the `update_secret`
payloads attempted, in order. -/
structure RotationResult where
  statusCode : Nat
  stored : String
  writes : List String
  deriving DecidableEq, Repr

/-- The secrets-rotator handler: retrieve current credentials → refresh →
test the new material → store it; a store failure triggers a rollback
write of the previous credentials (its own failure only logged) and the
run still fails; any earlier failure writes nothing. `stored0` is the
blob in the store at the start; a failed write leaves the store
unchanged. -/
def rotator_handler (stored0 : String)
    (retrieve : Except String Unit)
    (refresh : String → Except String String)
    (test : String → Except String Unit)
    (write : String → Except String Unit) : RotationResult :=
  match retrieve with
  | .error _ => { statusCode := 500, stored := stored0, writes := [] }
  | .ok _ =>
    match refresh stored0 with
    | .error _ => { statusCode := 500, stored := stored0, writes := [] }
    | .ok newCreds =>
      match test newCreds with
      | .error _ => { statusCode := 500, stored := stored0, writes := [] }
      | .ok _ =>
        match write newCreds with
        | .ok _ =>
            { statusCode := 200, stored := newCreds, writes := [newCreds] }
        | .error _ =>
            { statusCode := 500, stored := stored0,
              writes := [newCreds, stored0] }

end SecretsRotator

/-! ## Theorems -/

/-- C1 (counterexample): the claim says an item whose declared size equals
the multipart threshold exactly uses chunked upload; the code's branch is
the strict comparison `file_size > MULTIPART_THRESHOLD`, so a declared
size of exactly 104857600 bytes (the configured threshold, nonzero) takes
the direct path, not the chunked one. -/
theorem chunked_at_threshold_counterexample :
    chooseUploadStrategy MULTIPART_THRESHOLD MULTIPART_THRESHOLD ≠
      UploadStrategy.chunked := by
  decide

/-- C1 (amended): for every threshold, the chunked (multipart) strategy is
used iff the declared size is unknown (0) or strictly exceeds the
threshold, and the direct strategy otherwise; at the default threshold, an
item exactly at the threshold and one byte under both use direct upload,
while one byte over uses chunked upload. -/
theorem chooseUploadStrategy_spec :
    (∀ threshold fileSize : Nat,
      (chooseUploadStrategy threshold fileSize = .chunked ↔
        fileSize = 0 ∨ fileSize > threshold) ∧
      (chooseUploadStrategy threshold fileSize = .direct ↔
        ¬(fileSize = 0 ∨ fileSize > threshold))) ∧
    chooseUploadStrategy MULTIPART_THRESHOLD MULTIPART_THRESHOLD = .direct ∧
    chooseUploadStrategy MULTIPART_THRESHOLD (MULTIPART_THRESHOLD - 1) = .direct ∧
    chooseUploadStrategy MULTIPART_THRESHOLD (MULTIPART_THRESHOLD + 1) = .chunked := by
  refine ⟨fun threshold fileSize => ?_, by decide, by decide, by decide⟩
  constructor
  · unfold chooseUploadStrategy
    split <;> simp_all
  · unfold chooseUploadStrategy
    split <;> simp_all

/-- C2: a video is in the output of `filter_new_videos` iff it is among
the input videos and its ledger status is absent or not exactly
`COMPLETED`; in particular every input video whose status is `FAILED` or
`IN_PROGRESS` is included. -/
theorem filter_new_videos_spec :
    (∀ (videos : List VideoDict) (sync_statuses : String → Option String)
        (v : VideoDict),
      v ∈ filter_new_videos videos sync_statuses ↔
        v ∈ videos ∧ (sync_statuses v.media_id = none ∨
          sync_statuses v.media_id ≠ some "COMPLETED")) ∧
    (∀ (videos : List VideoDict) (sync_statuses : String → Option String)
        (v : VideoDict),
      v ∈ videos →
      (sync_statuses v.media_id = some "FAILED" ∨
        sync_statuses v.media_id = some "IN_PROGRESS") →
      v ∈ filter_new_videos videos sync_statuses) := by
  have hmem : ∀ (videos : List VideoDict)
      (sync_statuses : String → Option String) (v : VideoDict),
      v ∈ filter_new_videos videos sync_statuses ↔
        v ∈ videos ∧ (sync_statuses v.media_id = none ∨
          sync_statuses v.media_id ≠ some "COMPLETED") := by
    intro videos sync_statuses v
    unfold filter_new_videos
    rw [List.mem_filter]
    constructor
    · rintro ⟨hv, hb⟩
      refine ⟨hv, ?_⟩
      cases hs : sync_statuses v.media_id with
      | none => exact Or.inl rfl
      | some status =>
        right
        simp only [hs] at hb
        intro hcontra
        rw [Option.some.injEq] at hcontra
        subst hcontra
        simp at hb
    · rintro ⟨hv, hs⟩
      refine ⟨hv, ?_⟩
      cases hstat : sync_statuses v.media_id with
      | none => rfl
      | some status =>
        simp only [hstat] at hs
        rcases hs with h | h
        · exact absurd h (by simp)
        · simp only [ne_eq, Option.some.injEq] at h
          simpa using h
  refine ⟨hmem, ?_⟩
  intro videos sync_statuses v hv hs
  rw [hmem]
  refine ⟨hv, Or.inr ?_⟩
  rcases hs with h | h <;> simp [h]

/-- C2 (witness): a concrete ledger with one FAILED, one IN_PROGRESS and
one COMPLETED entry: the FAILED and IN_PROGRESS videos are kept. -/
theorem filter_new_videos_spec_witness :
    let vA : VideoDict := ⟨"a", "GHA.MP4", "u", 1, "d", 1, "video", "unknown"⟩
    let vB : VideoDict := ⟨"b", "GHB.MP4", "u", 1, "d", 1, "video", "unknown"⟩
    let ledger : String → Option String := fun id =>
      if id = "a" then some "FAILED"
      else if id = "b" then some "IN_PROGRESS" else some "COMPLETED"
    vA ∈ filter_new_videos [vA, vB] ledger ∧
      vB ∈ filter_new_videos [vA, vB] ledger := by
  intro vA vB ledger
  constructor
  · exact filter_new_videos_spec.2 [vA, vB] ledger vA (by simp)
      (Or.inl (by decide))
  · exact filter_new_videos_spec.2 [vA, vB] ledger vB (by simp)
      (Or.inr (by decide))

open TokenValidator in
/-- Helper: when the minimal probe was attempted and failed and the full
probe also failed, `validate_cookies` reduces to the final-status dispatch
of phase 2, with the probe trace being minimal-then-full. -/
lemma validate_cookies_eq_of_both_fail
    (cookies : String) (probe : String → Nat)
    (hc : ¬ cookies = "")
    (hfields : extract_cookie_value cookies "gp_access_token" ≠ "" ∧
      extract_cookie_value cookies "gp_user_id" ≠ "")
    (hmin : ¬ probe (minimal_cookie_header
      (extract_cookie_value cookies "gp_access_token")
      (extract_cookie_value cookies "gp_user_id")) = 200)
    (hfull : ¬ probe cookies = 200) :
    validate_cookies cookies probe =
      ((if probe cookies = 401 ∨ probe cookies = 403 then
          ValidationOutcome.tokenExpired
        else ValidationOutcome.validationError (probe cookies)),
       [minimal_cookie_header
          (extract_cookie_value cookies "gp_access_token")
          (extract_cookie_value cookies "gp_user_id"), cookies]) := by
  unfold validate_cookies full_phase
  rw [if_neg hc, if_pos hfields, if_neg hmin, if_neg hfull]
  split <;> simp

open TokenValidator in
/-- C6: when both probes fail (minimal attempted and non-200, full
non-200), `validate_cookies` raises `TokenExpiredError` exactly when the
final (full) probe's HTTP status is 401 or 403 — and the handler emits the
high-severity expiration alert exactly in that case — while any other
failing status (network failure included, status 0) raises the transient
`AuthenticationError` with no expiration alert. -/
theorem validate_cookies_expiry_dispatch
    (cookies : String) (probe : String → Nat)
    (hc : ¬ cookies = "")
    (hfields : extract_cookie_value cookies "gp_access_token" ≠ "" ∧
      extract_cookie_value cookies "gp_user_id" ≠ "")
    (hmin : ¬ probe (minimal_cookie_header
      (extract_cookie_value cookies "gp_access_token")
      (extract_cookie_value cookies "gp_user_id")) = 200)
    (hfull : ¬ probe cookies = 200) :
    ((validate_cookies cookies probe).1 = ValidationOutcome.tokenExpired ↔
      (probe cookies = 401 ∨ probe cookies = 403)) ∧
    (handler_alert_emitted (validate_cookies cookies probe).1 = true ↔
      (probe cookies = 401 ∨ probe cookies = 403)) ∧
    (¬(probe cookies = 401 ∨ probe cookies = 403) →
      (validate_cookies cookies probe).1 =
          ValidationOutcome.validationError (probe cookies) ∧
        handler_alert_emitted (validate_cookies cookies probe).1 = false) := by
  have heq := validate_cookies_eq_of_both_fail cookies probe hc hfields hmin hfull
  rw [heq]
  by_cases h45 : probe cookies = 401 ∨ probe cookies = 403
  · simp [h45, handler_alert_emitted]
  · simp [h45, handler_alert_emitted]

open TokenValidator in
/-- C6 (witness): a credential record with both minimal tokens present and
a probe answering 403 everywhere: both probes fail, the outcome is
`TokenExpiredError` and the alert is emitted; pointwise 404 instead gives
the transient error and no alert. -/
theorem validate_cookies_expiry_dispatch_witness :
    (validate_cookies "gp_access_token=t; gp_user_id=u; s=x"
        (fun _ => 403)).1 = ValidationOutcome.tokenExpired ∧
    handler_alert_emitted
      (validate_cookies "gp_access_token=t; gp_user_id=u; s=x"
        (fun _ => 403)).1 = true ∧
    (validate_cookies "gp_access_token=t; gp_user_id=u; s=x"
        (fun _ => 404)).1 = ValidationOutcome.validationError 404 ∧
    handler_alert_emitted
      (validate_cookies "gp_access_token=t; gp_user_id=u; s=x"
        (fun _ => 404)).1 = false := by
  have h403 := validate_cookies_expiry_dispatch
    "gp_access_token=t; gp_user_id=u; s=x" (fun _ => 403)
    (by decide) ⟨by decide, by decide⟩ (by decide) (by decide)
  have h404 := validate_cookies_expiry_dispatch
    "gp_access_token=t; gp_user_id=u; s=x" (fun _ => 404)
    (by decide) ⟨by decide, by decide⟩ (by decide) (by decide)
  refine ⟨h403.1.mpr (Or.inr rfl), h403.2.1.mpr (Or.inr rfl), ?_, ?_⟩
  · exact (h404.2.2 (by decide)).1
  · exact (h404.2.2 (by decide)).2

open TokenValidator in
/-- C7 (counterexample): the claim that the minimal probe is always
attempted first, and that method `full_cookies` is returned only after a
failed minimal attempt, is false: for cookies lacking the two token
fields (e.g. `session=abc`) the minimal probe is skipped entirely and the
full probe can succeed directly, returning method `full_cookies` with a
one-element probe trace. -/
theorem probe_ordering_claim_counterexample : ¬ probeOrderingClaim := by
  intro h
  have h1 := (h "session=abc" (fun _ => 200) (by decide)).1
  have h2 : ¬ ((validate_cookies "session=abc" (fun _ => 200)).2.head? =
      some (minimal_cookie_header
        (extract_cookie_value "session=abc" "gp_access_token")
        (extract_cookie_value "session=abc" "gp_user_id"))) := by decide
  exact h2 h1

open TokenValidator in
/-- C7 (amended): whenever both `gp_access_token` and `gp_user_id` are
extractable from the cookie header, the minimal-credential probe is
attempted before the full-credential probe and method `full_cookies` is
returned only when that minimal attempt failed; when either token is
missing, the minimal probe is skipped and the full header is the only
probe sent. -/
theorem validate_cookies_probe_ordering
    (cookies : String) (probe : String → Nat) (hc : ¬ cookies = "") :
    ((extract_cookie_value cookies "gp_access_token" ≠ "" ∧
        extract_cookie_value cookies "gp_user_id" ≠ "") →
      (validate_cookies cookies probe).2.head? =
          some (minimal_cookie_header
            (extract_cookie_value cookies "gp_access_token")
            (extract_cookie_value cookies "gp_user_id")) ∧
      (∀ code,
        (validate_cookies cookies probe).1 =
            ValidationOutcome.success "full_cookies" code →
        (validate_cookies cookies probe).2 =
            [minimal_cookie_header
              (extract_cookie_value cookies "gp_access_token")
              (extract_cookie_value cookies "gp_user_id"), cookies] ∧
          ¬ probe (minimal_cookie_header
            (extract_cookie_value cookies "gp_access_token")
            (extract_cookie_value cookies "gp_user_id")) = 200)) ∧
    (¬(extract_cookie_value cookies "gp_access_token" ≠ "" ∧
        extract_cookie_value cookies "gp_user_id" ≠ "") →
      (validate_cookies cookies probe).2 = [cookies]) := by
  constructor
  · intro hfields
    unfold validate_cookies full_phase
    rw [if_neg hc, if_pos hfields]
    by_cases hmin : probe (minimal_cookie_header
        (extract_cookie_value cookies "gp_access_token")
        (extract_cookie_value cookies "gp_user_id")) = 200
    · rw [if_pos hmin]
      exact ⟨rfl, fun code hcode => by simp at hcode⟩
    · rw [if_neg hmin]
      by_cases hfull : probe cookies = 200
      · rw [if_pos hfull]
        exact ⟨rfl, fun code _ => ⟨by simp, hmin⟩⟩
      · rw [if_neg hfull]
        refine ⟨?_, fun code hcode => ?_⟩
        · split <;> rfl
        · exfalso
          revert hcode
          split <;> simp
  · intro hfields
    unfold validate_cookies full_phase
    rw [if_neg hc, if_neg hfields]
    split
    · simp
    · split <;> simp

open TokenValidator in
/-- C7 (witness): with both tokens present, a probe failing on the minimal
header and succeeding on the full header yields method `full_cookies`
with the probe trace minimal-then-full and a failed minimal attempt. -/
theorem validate_cookies_probe_ordering_witness :
    (validate_cookies "gp_access_token=t; gp_user_id=u; e=x"
        (fun s => if s = "gp_access_token=t; gp_user_id=u" then 500
          else 200)).2 =
      [minimal_cookie_header
        (extract_cookie_value "gp_access_token=t; gp_user_id=u; e=x"
          "gp_access_token")
        (extract_cookie_value "gp_access_token=t; gp_user_id=u; e=x"
          "gp_user_id"),
       "gp_access_token=t; gp_user_id=u; e=x"] ∧
    ¬ (fun s : String =>
          if s = "gp_access_token=t; gp_user_id=u" then 500 else 200)
        (minimal_cookie_header
          (extract_cookie_value "gp_access_token=t; gp_user_id=u; e=x"
            "gp_access_token")
          (extract_cookie_value "gp_access_token=t; gp_user_id=u; e=x"
            "gp_user_id")) = 200 := by
  have h := (validate_cookies_probe_ordering
    "gp_access_token=t; gp_user_id=u; e=x"
    (fun s => if s = "gp_access_token=t; gp_user_id=u" then 500 else 200)
    (by decide)).1 ⟨by decide, by decide⟩
  exact h.2 200 (by decide)

open VideoDownloader in
/-- C3: (a) if an object already exists at the computed storage key with
`sourcemediaid` metadata equal to the item's media id, the handler
short-circuits with an already-uploaded result carrying that key, issues
zero download requests and performs no ledger write; (b) consequently a
second invocation after a completed first one (same event, object store
as the first run left it) short-circuits with the same storage key, zero
downloads and no ledger write. -/
theorem transfer_engine_idempotent
    (env : DownloaderEnv) (ev : DownloadEvent) :
    (∀ meta : S3ObjectMeta, env.credentials = .ok () →
      env.s3 (generate_s3_key env.parseIso env.today
        ev.provider ev.filename ev.upload_date) = some meta →
      meta.sourcemediaid = some ev.media_id →
      (downloader_handler env ev).outcome =
          .alreadyUploaded (generate_s3_key env.parseIso env.today
            ev.provider ev.filename ev.upload_date) ∧
        (downloader_handler env ev).downloads = 0 ∧
        (downloader_handler env ev).ledgerWrites = []) ∧
    (∀ key bytes,
      (downloader_handler env ev).outcome = .completed key bytes →
      (downloader_handler
          { env with s3 := (downloader_handler env ev).s3After } ev).outcome =
          .alreadyUploaded key ∧
        (downloader_handler
          { env with s3 := (downloader_handler env ev).s3After } ev).downloads = 0 ∧
        (downloader_handler
          { env with s3 := (downloader_handler env ev).s3After } ev).ledgerWrites = []) := by
  constructor
  · intro meta hcred hobj hmeta
    have hchk : check_already_uploaded env.s3
        (generate_s3_key env.parseIso env.today
          ev.provider ev.filename ev.upload_date) ev.media_id = true := by
      simp [check_already_uploaded, hobj, hmeta]
    simp [downloader_handler, hcred, hchk]
  · intro key bytes hcompleted
    cases hcred : env.credentials with
    | error e => simp [downloader_handler, hcred] at hcompleted
    | ok u =>
      cases u
      by_cases hchk : check_already_uploaded env.s3
          (generate_s3_key env.parseIso env.today
            ev.provider ev.filename ev.upload_date) ev.media_id = true
      · simp [downloader_handler, hcred, hchk] at hcompleted
      · rw [Bool.not_eq_true] at hchk
        cases hres : env.resolveUrl with
        | error e =>
          simp [downloader_handler, hcred, hchk, hres] at hcompleted
        | ok url =>
          cases htr : env.transfer url with
          | ok b etag =>
            have hrun : downloader_handler env ev =
                { outcome := .completed (generate_s3_key env.parseIso env.today
                    ev.provider ev.filename ev.upload_date) b,
                  downloads := 1,
                  ledgerWrites := [
                    { media_id := ev.media_id, status := "IN_PROGRESS",
                      attrs := [("provider", ev.provider),
                                ("filename", ev.filename),
                                ("file_size", toString ev.file_size),
                                ("upload_date", ev.upload_date)] },
                    { media_id := ev.media_id, status := "COMPLETED",
                      attrs := [("s3_key", generate_s3_key env.parseIso env.today
                                  ev.provider ev.filename ev.upload_date),
                                ("s3_etag", etag),
                                ("sync_timestamp", env.now ++ "Z"),
                                ("transfer_duration", env.transferDuration),
                                ("throughput_mbps", env.throughputMbps),
                                ("bytes_transferred", toString b)] }],
                  s3After := fun k =>
                    if k = generate_s3_key env.parseIso env.today
                        ev.provider ev.filename ev.upload_date then
                      some { sourcemediaid := some ev.media_id }
                    else env.s3 k } := by
              simp [downloader_handler, hcred, hchk, hres, htr]
            rw [hrun] at hcompleted
            simp only [RunOutcome.completed.injEq] at hcompleted
            obtain ⟨hkey, -⟩ := hcompleted
            subst hkey
            rw [hrun]
            simp [downloader_handler, hcred, check_already_uploaded]
          | httpError status =>
            by_cases h404 : status = 404
            · subst h404
              simp [downloader_handler, hcred, hchk, hres, htr] at hcompleted
            · simp [downloader_handler, hcred, hchk, hres, htr, h404]
                at hcompleted
          | otherFailure msg started =>
            simp [downloader_handler, hcred, hchk, hres, htr] at hcompleted

open VideoDownloader in
/-- C3 (witness): a concrete event and store where the object exists at
the computed key with matching `sourcemediaid`: the run short-circuits
with that key, zero downloads, no ledger write. -/
theorem transfer_engine_idempotent_witness :
    (downloader_handler
      { s3 := fun k => if k = "gopro-videos/2024/07/GH010001.MP4" then
          some { sourcemediaid := some "m1" } else none,
        parseIso := fun _ => some (2024, 7), today := (2025, 1),
        now := "T", credentials := .ok (), resolveUrl := .ok "u",
        transfer := fun _ => .ok 10 "etag",
        transferDuration := "1.0", throughputMbps := "8.0" }
      { provider := "gopro", media_id := "m1",
        filename := "GH010001.MP4", file_size := 10,
        upload_date := "2024-07-01T00:00:00Z", retry_count := 0 }).outcome =
      RunOutcome.alreadyUploaded "gopro-videos/2024/07/GH010001.MP4" ∧
    (downloader_handler
      { s3 := fun k => if k = "gopro-videos/2024/07/GH010001.MP4" then
          some { sourcemediaid := some "m1" } else none,
        parseIso := fun _ => some (2024, 7), today := (2025, 1),
        now := "T", credentials := .ok (), resolveUrl := .ok "u",
        transfer := fun _ => .ok 10 "etag",
        transferDuration := "1.0", throughputMbps := "8.0" }
      { provider := "gopro", media_id := "m1",
        filename := "GH010001.MP4", file_size := 10,
        upload_date := "2024-07-01T00:00:00Z", retry_count := 0 }).downloads = 0 ∧
    (downloader_handler
      { s3 := fun k => if k = "gopro-videos/2024/07/GH010001.MP4" then
          some { sourcemediaid := some "m1" } else none,
        parseIso := fun _ => some (2024, 7), today := (2025, 1),
        now := "T", credentials := .ok (), resolveUrl := .ok "u",
        transfer := fun _ => .ok 10 "etag",
        transferDuration := "1.0", throughputMbps := "8.0" }
      { provider := "gopro", media_id := "m1",
        filename := "GH010001.MP4", file_size := 10,
        upload_date := "2024-07-01T00:00:00Z", retry_count := 0 }).ledgerWrites = [] := by
  exact (transfer_engine_idempotent _ _).1 { sourcemediaid := some "m1" }
    rfl (by decide) (by decide)

open VideoDownloader in
/-- C5: a download attempt whose HTTP response status is 404 ends the run
with the soft source-deleted success (statusCode 200): the final ledger
write is COMPLETED with the `source_deleted` note, and no write in the
run is FAILED. -/
theorem source_deleted_marks_completed
    (env : DownloaderEnv) (ev : DownloadEvent) (url : String)
    (hcred : env.credentials = .ok ())
    (hchk : check_already_uploaded env.s3
      (generate_s3_key env.parseIso env.today
        ev.provider ev.filename ev.upload_date) ev.media_id = false)
    (hurl : env.resolveUrl = .ok url)
    (h404 : env.transfer url = .httpError 404) :
    (downloader_handler env ev).outcome = .sourceDeleted ∧
    returns_success (downloader_handler env ev).outcome = true ∧
    (downloader_handler env ev).ledgerWrites.getLast? = some
      { media_id := ev.media_id, status := "COMPLETED",
        attrs := [("note", "source_deleted"),
                  ("sync_timestamp", env.now ++ "Z")] } ∧
    (∀ w ∈ (downloader_handler env ev).ledgerWrites,
      w.status ≠ "FAILED") := by
  have hrun : downloader_handler env ev =
      { outcome := .sourceDeleted, downloads := 1,
        ledgerWrites := [
          { media_id := ev.media_id, status := "IN_PROGRESS",
            attrs := [("provider", ev.provider), ("filename", ev.filename),
                      ("file_size", toString ev.file_size),
                      ("upload_date", ev.upload_date)] },
          { media_id := ev.media_id, status := "COMPLETED",
            attrs := [("note", "source_deleted"),
                      ("sync_timestamp", env.now ++ "Z")] }],
        s3After := env.s3 } := by
    simp [downloader_handler, hcred, hchk, hurl, h404]
  rw [hrun]
  refine ⟨rfl, rfl, rfl, ?_⟩
  intro w hw
  rcases List.mem_cons.mp hw with h | h
  · subst h
    exact (show ("IN_PROGRESS" : String) ≠ "FAILED" by decide)
  · rcases List.mem_cons.mp h with h2 | h2
    · subst h2
      exact (show ("COMPLETED" : String) ≠ "FAILED" by decide)
    · simp at h2

open VideoDownloader in
/-- C5 (witness): a concrete run whose download returns 404: outcome is
the source-deleted success and the final ledger write is COMPLETED with
the note. -/
theorem source_deleted_marks_completed_witness :
    (downloader_handler
      { s3 := fun _ => none,
        parseIso := fun _ => some (2024, 7), today := (2025, 1),
        now := "T", credentials := .ok (), resolveUrl := .ok "u",
        transfer := fun _ => .httpError 404,
        transferDuration := "1.0", throughputMbps := "8.0" }
      { provider := "gopro", media_id := "m1",
        filename := "GH010001.MP4", file_size := 10,
        upload_date := "2024-07-01T00:00:00Z", retry_count := 0 }).outcome =
      RunOutcome.sourceDeleted ∧
    (downloader_handler
      { s3 := fun _ => none,
        parseIso := fun _ => some (2024, 7), today := (2025, 1),
        now := "T", credentials := .ok (), resolveUrl := .ok "u",
        transfer := fun _ => .httpError 404,
        transferDuration := "1.0", throughputMbps := "8.0" }
      { provider := "gopro", media_id := "m1",
        filename := "GH010001.MP4", file_size := 10,
        upload_date := "2024-07-01T00:00:00Z", retry_count := 0 }).ledgerWrites.getLast? =
      some { media_id := "m1", status := "COMPLETED",
             attrs := [("note", "source_deleted"),
                       ("sync_timestamp", "TZ")] } := by
  have h := source_deleted_marks_completed
    { s3 := fun _ => none,
      parseIso := fun _ => some (2024, 7), today := (2025, 1),
      now := "T", credentials := .ok (), resolveUrl := .ok "u",
      transfer := fun _ => .httpError 404,
      transferDuration := "1.0", throughputMbps := "8.0" }
    { provider := "gopro", media_id := "m1",
      filename := "GH010001.MP4", file_size := 10,
      upload_date := "2024-07-01T00:00:00Z", retry_count := 0 }
    "u" rfl (by decide) rfl (by decide)
  exact ⟨h.1, h.2.2.1⟩

open VideoDownloader in
/-- Helper: the chunk loop only ever performs `upload_part` calls. -/
lemma upload_parts_trace_only_parts
    (up : Nat → Nat → Except String String) (chunks : List Nat) :
    ∀ partNo, ∀ a ∈ (upload_parts up chunks partNo).2,
      ∃ n, a = S3Action.uploadPart n := by
  induction chunks with
  | nil => intro partNo a ha; simp [upload_parts] at ha
  | cons c rest ih =>
    intro partNo a ha
    by_cases hc : c = 0
    · exact ih partNo a (by simpa [upload_parts, hc] using ha)
    · simp only [upload_parts, if_neg hc] at ha
      cases hup : up partNo c with
      | error e =>
        rw [hup] at ha
        simp at ha
        exact ⟨partNo, ha⟩
      | ok etag =>
        rw [hup] at ha
        rcases hrec : upload_parts up rest (partNo + 1) with ⟨r, tr⟩
        rw [hrec] at ha
        cases r with
        | error e =>
          simp at ha
          rcases ha with h | h
          · exact ⟨partNo, h⟩
          · exact ih (partNo + 1) a (by rw [hrec]; exact h)
        | ok pb =>
          rcases pb with ⟨parts, bytes⟩
          simp at ha
          rcases ha with h | h
          · exact ⟨partNo, h⟩
          · exact ih (partNo + 1) a (by rw [hrec]; exact h)

open VideoDownloader in
/-- C9: once the multipart session has been created, any failure before
its completion (download request, part upload, or the completion call
itself) ends the run with the original error and the session abort as the
last S3 call of the trace; a run that returns successfully never aborts;
and a failure of session creation itself performs no further S3 call. -/
theorem multipart_session_cleanup (env : MultipartEnv) :
    (∀ uploadId e, env.create = .ok uploadId →
      (multipart_upload_stream env).result = .error e →
      (multipart_upload_stream env).trace.getLast? =
        some S3Action.abortSession) ∧
    (∀ r, (multipart_upload_stream env).result = .ok r →
      S3Action.abortSession ∉ (multipart_upload_stream env).trace) ∧
    (∀ e, env.create = .error e →
      (multipart_upload_stream env).trace = []) := by
  refine ⟨?_, ?_, ?_⟩
  · intro uploadId e hcreate herr
    cases hget : env.httpGet with
    | error eg =>
      simp [multipart_upload_stream, hcreate, hget]
    | ok chunks =>
      rcases hparts : upload_parts env.uploadPart chunks 1 with ⟨r, tr⟩
      cases r with
      | error ep =>
        simp only [multipart_upload_stream, hcreate, hget, hparts]
        rw [show (S3Action.createSession :: (tr ++ [S3Action.abortSession])) =
          (S3Action.createSession :: tr) ++ [S3Action.abortSession] by simp]
        exact List.getLast?_concat _
      | ok pb =>
        rcases pb with ⟨parts, bytes⟩
        cases hcomp : env.complete with
        | error ec =>
          simp only [multipart_upload_stream, hcreate, hget, hparts, hcomp]
          rw [show (S3Action.createSession ::
              (tr ++ [S3Action.completeSession, S3Action.abortSession])) =
            ((S3Action.createSession :: tr) ++ [S3Action.completeSession]) ++
              [S3Action.abortSession] by simp]
          exact List.getLast?_concat _
        | ok etag =>
          simp [multipart_upload_stream, hcreate, hget, hparts, hcomp] at herr
  · intro r hok
    cases hcreate : env.create with
    | error e => simp [multipart_upload_stream, hcreate] at hok
    | ok uploadId =>
      cases hget : env.httpGet with
      | error eg => simp [multipart_upload_stream, hcreate, hget] at hok
      | ok chunks =>
        rcases hparts : upload_parts env.uploadPart chunks 1 with ⟨pr, tr⟩
        cases pr with
        | error ep =>
          simp [multipart_upload_stream, hcreate, hget, hparts] at hok
        | ok pb =>
          rcases pb with ⟨parts, bytes⟩
          cases hcomp : env.complete with
          | error ec =>
            simp [multipart_upload_stream, hcreate, hget, hparts, hcomp] at hok
          | ok etag =>
            simp only [multipart_upload_stream, hcreate, hget, hparts, hcomp]
            intro hmem
            rcases List.mem_cons.mp hmem with h | h
            · exact absurd h (by decide)
            · rcases List.mem_append.mp h with h2 | h2
              · obtain ⟨n, hn⟩ := upload_parts_trace_only_parts
                  env.uploadPart chunks 1 S3Action.abortSession
                  (by rw [hparts]; exact h2)
                exact S3Action.noConfusion hn
              · simp at h2
  · intro e hcreate
    simp [multipart_upload_stream, hcreate]

open VideoDownloader in
/-- C9 (witness): with two 100-MB-chunk parts uploaded, a failing
completion call aborts the session as the last S3 action; the same run
with a succeeding completion never aborts. -/
theorem multipart_session_cleanup_witness :
    (multipart_upload_stream
      { create := .ok "uid", httpGet := .ok [5, 3],
        uploadPart := fun _ _ => .ok "pe",
        complete := .error "boom" }).trace.getLast? =
      some S3Action.abortSession ∧
    S3Action.abortSession ∉ (multipart_upload_stream
      { create := .ok "uid", httpGet := .ok [5, 3],
        uploadPart := fun _ _ => .ok "pe",
        complete := .ok "etagC" }).trace := by
  constructor
  · exact (multipart_session_cleanup _).1 "uid" "boom" rfl rfl
  · exact (multipart_session_cleanup _).2.1 (8, "etagC", 2) rfl

open MediaLister in
/-- C4: whenever the provider's paged listing call returns normally —
whatever pair it returns, the empty page included — the listing helper
raises `ProviderError` rather than returning item dictionaries: the
`for` loop iterates the returned tuple's two components, neither of which
has a `media_id` attribute, and the resulting `AttributeError` (re-raised
from the loop's own `except` handler) is wrapped by the outer
`except Exception` into `ProviderError`. -/
theorem list_media_tuple_iteration_raises
    (videos : List VideoMetadata) (meta : PaginationMeta) :
    list_media_from_provider (.ok (videos, meta)) =
      .error ListerError.providerError := rfl

open MediaLister in
/-- Helper: the missing-fields list is empty exactly when all four
required fields are truthy. -/
lemma missing_required_fields_nil_iff (video : VideoDict) :
    missing_required_fields video = [] ↔
      (video.media_id ≠ "" ∧ video.filename ≠ "" ∧
       video.download_url ≠ "" ∧ video.file_size ≠ 0) := by
  unfold missing_required_fields
  split_ifs <;> simp_all

open MediaLister in
/-- C10: `validate_video_metadata` raises (an `APIError` whose status
code is 200) for exactly the dictionaries in which `media_id`,
`filename`, `download_url` or `file_size` is falsy — a declared file size
of 0 in particular — and every dictionary the per-item loop returns (the
candidates forwarded onward) has a nonzero file size. -/
theorem validate_video_metadata_spec :
    (∀ video : VideoDict,
      (∃ e, validate_video_metadata video = .error e) ↔
        (video.media_id = "" ∨ video.filename = "" ∨
         video.download_url = "" ∨ video.file_size = 0)) ∧
    (∀ video e, validate_video_metadata video = .error e → e.2 = 200) ∧
    (∀ (items : List PyObj) (ds : List VideoDict),
      process_videos items = .ok ds → ∀ d ∈ ds, d.file_size ≠ 0) := by
  have herr : ∀ video : VideoDict,
      (∃ e, validate_video_metadata video = .error e) ↔
        ¬ missing_required_fields video = [] := by
    intro video
    unfold validate_video_metadata
    split_ifs with h <;> simp [h]
  refine ⟨?_, ?_, ?_⟩
  · intro video
    rw [herr, missing_required_fields_nil_iff]
    tauto
  · intro video e he
    unfold validate_video_metadata at he
    by_cases h : missing_required_fields video = []
    · rw [if_pos h] at he
      exact Except.noConfusion he
    · rw [if_neg h] at he
      simp only [Except.error.injEq] at he
      rw [← he]
  · intro items
    induction items with
    | nil =>
      intro ds h
      simp only [process_videos, Except.ok.injEq] at h
      subst h
      intro d hd
      simp at hd
    | cons obj rest ih =>
      intro ds h
      cases obj with
      | video v =>
        simp only [process_videos, getattr_media_id] at h
        cases hval : validate_video_metadata (makeVideoDict v) with
        | ok u =>
          simp only [hval] at h
          cases hrec : process_videos rest with
          | ok dsRest =>
            simp only [hrec, Except.ok.injEq] at h
            subst h
            intro d hd
            rcases List.mem_cons.mp hd with hd1 | hd2
            · subst hd1
              have hmiss : missing_required_fields (makeVideoDict v) = [] := by
                by_contra hne
                obtain ⟨e, he⟩ := (herr _).mpr hne
                rw [hval] at he
                exact Except.noConfusion he
              exact ((missing_required_fields_nil_iff _).mp hmiss).2.2.2
            · exact ih dsRest hrec d hd2
          | error eRest =>
            simp only [hrec] at h
            exact Except.noConfusion h
        | error e =>
          simp only [hval] at h
          exact ih ds h
      | videoList vs =>
        simp only [process_videos, getattr_media_id] at h
        exact Except.noConfusion h
      | metaDict m =>
        simp only [process_videos, getattr_media_id] at h
        exact Except.noConfusion h

open MediaLister in
/-- C10 (witness): a parsed item with file size 0 is rejected by
validation with status code 200, and the loop forwards nothing from it. -/
theorem validate_video_metadata_spec_witness :
    (∃ e, validate_video_metadata
      { media_id := "m1", filename := "GH010001.MP4",
        download_url := "https://cdn/x", file_size := 0,
        upload_date := "2024-07-01", duration := 3,
        media_type := "video", resolution := "unknown" } = .error e) ∧
    process_videos
      [PyObj.video
        { media_id := "m1", filename := "GH010001.MP4",
          download_url := "https://cdn/x", file_size := 0,
          upload_date := "2024-07-01", duration := 3,
          provider := "gopro" }] = .ok [] ∧
    (∀ d ∈ ([] : List VideoDict), d.file_size ≠ 0) := by
  refine ⟨?_, rfl, ?_⟩
  · exact (validate_video_metadata_spec.1 _).mpr (by right; right; right; rfl)
  · exact validate_video_metadata_spec.2.2
      [PyObj.video
        { media_id := "m1", filename := "GH010001.MP4",
          download_url := "https://cdn/x", file_size := 0,
          upload_date := "2024-07-01", duration := 3,
          provider := "gopro" }] [] rfl

open SecretsRotator in
/-- C8: the secret store is overwritten with new material only when that
material came from the refresh step and passed the test probe (every
write payload is either such material or the rollback of the previous
blob); a refresh or test failure leaves the stored credential unchanged
with no write attempted; a store-write failure triggers a rollback write
of the previous credential and the run reports failure (statusCode
500). -/
theorem rotator_commit_semantics (stored0 : String)
    (retrieve : Except String Unit)
    (refresh : String → Except String String)
    (test : String → Except String Unit)
    (write : String → Except String Unit) :
    ((rotator_handler stored0 retrieve refresh test write).stored =
        stored0 ∨
      (refresh stored0 =
          .ok ((rotator_handler stored0 retrieve refresh test write).stored) ∧
        test ((rotator_handler stored0 retrieve refresh test write).stored) =
          .ok () ∧
        (rotator_handler stored0 retrieve refresh test write).statusCode =
          200)) ∧
    (∀ c ∈ (rotator_handler stored0 retrieve refresh test write).writes,
      c = stored0 ∨ (refresh stored0 = .ok c ∧ test c = .ok ())) ∧
    (∀ e, refresh stored0 = .error e →
      rotator_handler stored0 retrieve refresh test write =
        { statusCode := 500, stored := stored0, writes := [] }) ∧
    (∀ c e, refresh stored0 = .ok c → test c = .error e →
      rotator_handler stored0 retrieve refresh test write =
        { statusCode := 500, stored := stored0, writes := [] }) ∧
    (∀ c e, retrieve = .ok () → refresh stored0 = .ok c →
      test c = .ok () → write c = .error e →
      rotator_handler stored0 retrieve refresh test write =
        { statusCode := 500, stored := stored0,
          writes := [c, stored0] }) := by
  cases hret : retrieve with
  | error e0 => simp [rotator_handler]
  | ok u0 =>
    cases u0
    cases href : refresh stored0 with
    | error e1 => simp [rotator_handler, href]
    | ok newC =>
      cases htest : test newC with
      | error e2 =>
        simp [rotator_handler, href, htest]
        intro c e hc ht _
        subst hc
        rw [htest] at ht
        exact Except.noConfusion ht
      | ok u2 =>
        cases u2
        cases hw : write newC with
        | ok u3 =>
          simp [rotator_handler, href, htest, hw]
          constructor
          · intro c e hc ht
            subst hc
            rw [htest] at ht
            exact Except.noConfusion ht
          · intro c e hc _ hwrong
            subst hc
            rw [hw] at hwrong
            exact Except.noConfusion hwrong
        | error e3 =>
          simp [rotator_handler, href, htest, hw]
          constructor
          · intro c e hc ht
            subst hc
            rw [htest] at ht
            exact Except.noConfusion ht
          · intro c e hc _ _
            exact hc

open SecretsRotator in
/-- C8 (witness): a concrete run whose refresh and test succeed but whose
store write fails: the rollback write of the previous blob is attempted
after the failed write and the run reports statusCode 500 with the store
left on the previous credential. -/
theorem rotator_commit_semantics_witness :
    rotator_handler "old" (.ok ()) (fun _ => .ok "new")
      (fun _ => .ok ())
      (fun c => if c = "new" then .error "disk" else .ok ()) =
      { statusCode := 500, stored := "old", writes := ["new", "old"] } := by
  exact (rotator_commit_semantics "old" (.ok ()) (fun _ => .ok "new")
    (fun _ => .ok ())
    (fun c => if c = "new" then .error "disk" else .ok ())).2.2.2.2
    "new" "disk" rfl rfl rfl rfl

end SwishCloudSync
